/-
Verification of the fast-dl parallel chunked downloader and the la-tools
git-object codec (repository mzhou/la-tools).

The definitions below are a shallow embedding of the Rust sources:
  - fast-dl/src/lib.rs   (`try_main`, `CHUNK_SIZE`, `RETRY_WAIT_BASE`)
  - la-tools/src/git_object.rs (`encode_sync`, `decode_sync`,
    `GitObjectReadSync`)
Machine integers are modelled as `Nat` with an explicit modulus where the
Rust code performs `u64`/`u32` arithmetic that can wrap in release builds.
-/
import Mathlib

set_option maxHeartbeats 1000000

namespace FastDl

/-- `CHUNK_SIZE` from fast-dl/src/lib.rs line 92: `16 * 1024 * 1024` bytes. -/
def CHUNK_SIZE : Nat := 16 * 1024 * 1024

/-- `RETRY_WAIT_BASE` from fast-dl/src/lib.rs line 93, in nanoseconds
(`Duration::new(0, 100_000_000)`, i.e. 0.1 s). -/
def RETRY_WAIT_BASE_NS : Nat := 100000000

/-- Modulus of Rust `u64` arithmetic (2^64). -/
def U64M : Nat := 18446744073709551616

/-- Modulus of Rust `u32` arithmetic (2^32). -/
def U32M : Nat := 4294967296

/-- Number of chunk tasks spawned for one work item
(lib.rs line 300: `(len + CHUNK_SIZE - 1) / CHUNK_SIZE`, computed in `u64`,
which wraps modulo 2^64 in release builds when `len + CHUNK_SIZE - 1`
overflows). -/
def numChunks (len : Nat) : Nat := ((len + CHUNK_SIZE - 1) % U64M) / CHUNK_SIZE

/-- `range_begin` of chunk `i` (lib.rs line 309: `chunk_i * CHUNK_SIZE` in
`u64`). -/
def chunkBegin (i : Nat) : Nat := (i * CHUNK_SIZE) % U64M

/-- `range_end` of chunk `i` (lib.rs line 310:
`min(len, (chunk_i + 1) * CHUNK_SIZE)` in `u64`). -/
def chunkEnd (len i : Nat) : Nat := min len (((i + 1) * CHUNK_SIZE) % U64M)

/-- The `(range_begin, range_end)` pairs of the chunk tasks a file task
spawns for a work item of compressed size `len`
(lib.rs lines 300-312, the `for chunk_i in 0u64..total_file_chunks` loop). -/
def fileChunks (len : Nat) : List (Nat × Nat) :=
  (List.range (numChunks len)).map (fun i => (chunkBegin i, chunkEnd len i))

theorem chunkSize_pos : 0 < CHUNK_SIZE := by norm_num [CHUNK_SIZE]

theorem numChunks_eq (len : Nat) (hfit : len + CHUNK_SIZE - 1 < U64M) :
    numChunks len = (len + CHUNK_SIZE - 1) / CHUNK_SIZE := by
  unfold numChunks
  rw [Nat.mod_eq_of_lt hfit]

theorem lt_numChunks_iff (len i : Nat) (hfit : len + CHUNK_SIZE - 1 < U64M) :
    i < numChunks len ↔ i * CHUNK_SIZE < len := by
  rw [numChunks_eq len hfit]
  have h := Nat.le_div_iff_mul_le (k := CHUNK_SIZE) (x := i + 1)
    (y := len + CHUNK_SIZE - 1) chunkSize_pos
  constructor
  · intro hi
    have h2 := h.mp hi
    simp only [CHUNK_SIZE] at h2 ⊢
    omega
  · intro hi
    refine h.mpr ?_
    simp only [CHUNK_SIZE] at hi ⊢
    omega

theorem chunk_mul_lt (len i : Nat) (hfit : len + CHUNK_SIZE - 1 < U64M)
    (hi : i < numChunks len) : (i + 1) * CHUNK_SIZE < U64M := by
  have h1 : i + 1 ≤ numChunks len := hi
  rw [numChunks_eq len hfit] at h1
  have h2 : (i + 1) * CHUNK_SIZE ≤ len + CHUNK_SIZE - 1 :=
    (Nat.le_div_iff_mul_le chunkSize_pos).mp h1
  omega

theorem chunkBounds_eq (len i : Nat) (hfit : len + CHUNK_SIZE - 1 < U64M)
    (hi : i < numChunks len) :
    chunkBegin i = i * CHUNK_SIZE ∧
      chunkEnd len i = min len ((i + 1) * CHUNK_SIZE) := by
  have h1 : (i + 1) * CHUNK_SIZE < U64M := chunk_mul_lt len i hfit hi
  have h0 : i * CHUNK_SIZE < U64M := by
    refine lt_of_le_of_lt ?_ h1
    exact Nat.mul_le_mul_right _ (Nat.le_succ i)
  constructor
  · unfold chunkBegin
    exact Nat.mod_eq_of_lt h0
  · unfold chunkEnd
    rw [Nat.mod_eq_of_lt h1]

/-- Claim C5 (amended): for a work item whose compressed size `len` satisfies
`0 < len` and `len + CHUNK_SIZE - 1 < 2^64` (so the u64 chunk-count
computation does not overflow), the file task creates exactly
`⌈len / CHUNK_SIZE⌉` chunk tasks; every chunk is non-empty and at most
`CHUNK_SIZE` (16 MiB) long, the chunk ranges are pairwise disjoint, and
together they cover exactly `[0, len)`. -/
theorem c5_chunks_partition (len : Nat) (hpos : 0 < len)
    (hfit : len + CHUNK_SIZE - 1 < U64M) :
    (fileChunks len).length = (len + CHUNK_SIZE - 1) / CHUNK_SIZE
    ∧ (∀ c ∈ fileChunks len, c.1 < c.2 ∧ c.2 - c.1 ≤ CHUNK_SIZE)
    ∧ (fileChunks len).Pairwise (fun c d => c.2 ≤ d.1 ∨ d.2 ≤ c.1)
    ∧ (∀ x, x < len ↔ ∃ c ∈ fileChunks len, c.1 ≤ x ∧ x < c.2) := by
  have hlen0 : 0 < len := hpos
  refine ⟨?_, ?_, ?_, ?_⟩
  · simp [fileChunks, numChunks_eq len hfit]
  · intro c hc
    rw [fileChunks, List.mem_map] at hc
    obtain ⟨i, hi, rfl⟩ := hc
    rw [List.mem_range] at hi
    obtain ⟨hb, he⟩ := chunkBounds_eq len i hfit hi
    have hlt : i * CHUNK_SIZE < len := (lt_numChunks_iff len i hfit).mp hi
    have hmul : i * CHUNK_SIZE < (i + 1) * CHUNK_SIZE := by
      have := chunkSize_pos
      simp only [CHUNK_SIZE] at *
      omega
    constructor
    · simp only [hb, he]
      exact lt_min hlt hmul
    · simp only [hb, he]
      have : min len ((i + 1) * CHUNK_SIZE) ≤ (i + 1) * CHUNK_SIZE :=
        min_le_right _ _
      simp only [CHUNK_SIZE] at *
      omega
  · rw [List.pairwise_iff_getElem]
    intro a b ha hb hab
    simp only [fileChunks, List.length_map, List.length_range] at ha hb
    simp only [fileChunks, List.getElem_map, List.getElem_range]
    obtain ⟨hba, hea⟩ := chunkBounds_eq len a hfit ha
    obtain ⟨hbb, _⟩ := chunkBounds_eq len b hfit hb
    left
    simp only [hea, hbb]
    have h1 : (a + 1) * CHUNK_SIZE ≤ b * CHUNK_SIZE :=
      Nat.mul_le_mul_right _ hab
    have h2 : min len ((a + 1) * CHUNK_SIZE) ≤ (a + 1) * CHUNK_SIZE :=
      min_le_right _ _
    omega
  · intro x
    constructor
    · intro hx
      set i := x / CHUNK_SIZE with hidef
      have hile : i * CHUNK_SIZE ≤ x := Nat.div_mul_le_self x CHUNK_SIZE
      have hmem : i < numChunks len := by
        rw [lt_numChunks_iff len i hfit]
        omega
      obtain ⟨hb, he⟩ := chunkBounds_eq len i hfit hmem
      refine ⟨(chunkBegin i, chunkEnd len i), ?_, ?_, ?_⟩
      · rw [fileChunks, List.mem_map]
        exact ⟨i, List.mem_range.mpr hmem, rfl⟩
      · simpa [hb] using hile
      · have hmod : x % CHUNK_SIZE < CHUNK_SIZE := Nat.mod_lt _ chunkSize_pos
        have hdm : CHUNK_SIZE * (x / CHUNK_SIZE) + x % CHUNK_SIZE = x :=
          Nat.div_add_mod x CHUNK_SIZE
        simp only [he]
        refine lt_min hx ?_
        rw [hidef]
        have : (x / CHUNK_SIZE + 1) * CHUNK_SIZE =
            CHUNK_SIZE * (x / CHUNK_SIZE) + CHUNK_SIZE := by ring
        omega
    · intro ⟨c, hc, hcx, hxc⟩
      rw [fileChunks, List.mem_map] at hc
      obtain ⟨i, hi, rfl⟩ := hc
      have : chunkEnd len i ≤ len := min_le_left _ _
      omega

/-- Claim C5 counterexample: at `len = 2^64 - 1` (a value the u64
Content-Length parse admits), the u64 expression `len + CHUNK_SIZE - 1`
wraps, the file task creates zero chunk tasks, and in particular no chunk
covers byte 0, so the spawned chunks do not partition `[0, len)` even though
`len > 0`. -/
theorem c5_overflow_counterexample :
    0 < 18446744073709551615
    ∧ fileChunks 18446744073709551615 = []
    ∧ ¬ ∃ c ∈ fileChunks 18446744073709551615, c.1 ≤ 0 ∧ 0 < c.2 := by
  refine ⟨by norm_num, by decide, ?_⟩
  have h : fileChunks 18446744073709551615 = [] := by decide
  simp [h]

/-- Witness for `c5_chunks_partition` at the concrete compressed size
20000000 used by scenario S1 of the specification. -/
theorem c5_chunks_partition_witness :
    0 < 20000000 ∧ 20000000 + CHUNK_SIZE - 1 < U64M
    ∧ ((fileChunks 20000000).length = (20000000 + CHUNK_SIZE - 1) / CHUNK_SIZE
       ∧ (∀ c ∈ fileChunks 20000000, c.1 < c.2 ∧ c.2 - c.1 ≤ CHUNK_SIZE)
       ∧ (fileChunks 20000000).Pairwise (fun c d => c.2 ≤ d.1 ∨ d.2 ≤ c.1)
       ∧ (∀ x, x < 20000000 ↔ ∃ c ∈ fileChunks 20000000, c.1 ≤ x ∧ x < c.2)) :=
  ⟨by norm_num, by norm_num [CHUNK_SIZE, U64M],
   c5_chunks_partition 20000000 (by norm_num) (by norm_num [CHUNK_SIZE, U64M])⟩

/-- A manifest entry together with the state of its destination file.
`id` identifies the entry (its position in the manifest), `finalSize` is the
decompressed size from the index, and `disk` models the destination path:
`none` when `File::open(dst_path)` fails, `some c` when the file exists with
byte content `c` (in which case `seek(SeekFrom::End(0))` reports
`c.length`). -/
structure MEntry where
  id : Nat
  finalSize : Nat
  disk : Option (List Nat)
deriving DecidableEq

/-- The already-complete filter from lib.rs lines 226-239: an entry is
dropped (skipped) exactly when the destination file opens and its on-disk
length equals the entry's size; in every other case it stays in the work
set. -/
def skipCheck (e : MEntry) : Bool :=
  match e.disk with
  | some c => c.length == e.finalSize
  | none => false

/-- `todo_entries` from lib.rs lines 226-239: the entries that survive the
skip filter. -/
def todoEntries (l : List MEntry) : List MEntry :=
  l.filter (fun e => !skipCheck e)

/-- The entry ids of the HEAD requests issued by the planner
(lib.rs lines 246-259: one HEAD per entry of `todo_entries`). -/
def headRequestIds (l : List MEntry) : List Nat :=
  (todoEntries l).map (fun e => e.id)

/-- The entry ids of the ranged GET requests issued by the run, one per chunk
task (lib.rs lines 292-358: chunk tasks are built only from
`zip(todo_entries, content_lengths)`). -/
def getRequestIds (l : List MEntry) (lens : List Nat) : List Nat :=
  (List.zip (todoEntries l) lens).flatMap
    (fun p => (List.range (numChunks p.2)).map (fun _ => p.1.id))

/-- Claim C7: an entry is dropped from the work set exactly when its
destination file can be opened and its on-disk length equals `final_size`;
no HEAD and no chunk GET is issued for a dropped entry (every issued request
belongs to an entry the filter kept); the decision depends only on the
on-disk length, never on the content; and a run over an already-complete
tree issues zero object requests. -/
theorem c7_skip_filter :
    (∀ e : MEntry, skipCheck e = true ↔
      ∃ c, e.disk = some c ∧ c.length = e.finalSize)
    ∧ (∀ (l : List MEntry) (lens : List Nat) (i : Nat),
        (i ∈ headRequestIds l ∨ i ∈ getRequestIds l lens) →
        ∃ e, e ∈ l ∧ e.id = i ∧ skipCheck e = false)
    ∧ (∀ (i fs : Nat) (c c' : List Nat), c.length = c'.length →
        skipCheck (MEntry.mk i fs (some c)) = skipCheck (MEntry.mk i fs (some c')))
    ∧ (∀ (l : List MEntry) (lens : List Nat), (∀ e ∈ l, skipCheck e = true) →
        headRequestIds l = [] ∧ getRequestIds l lens = []) := by
  refine ⟨?_, ?_, ?_, ?_⟩
  · intro e
    cases e with
    | mk i fs disk =>
      cases disk with
      | none => simp [skipCheck]
      | some c => simp [skipCheck]
  · intro l lens i hi
    have hmem : ∃ e, e ∈ todoEntries l ∧ e.id = i := by
      cases hi with
      | inl h =>
        rw [headRequestIds, List.mem_map] at h
        obtain ⟨e, he, hei⟩ := h
        exact ⟨e, he, hei⟩
      | inr h =>
        rw [getRequestIds, List.mem_flatMap] at h
        obtain ⟨p, hp, hpe⟩ := h
        rw [List.mem_map] at hpe
        obtain ⟨j, _, hj⟩ := hpe
        have := List.of_mem_zip hp
        exact ⟨p.1, this.1, hj⟩
    obtain ⟨e, he, hei⟩ := hmem
    rw [todoEntries, List.mem_filter] at he
    refine ⟨e, he.1, hei, ?_⟩
    have := he.2
    simp at this
    exact this
  · intro i fs c c' hlen
    simp [skipCheck, hlen]
  · intro l lens hall
    have ht : todoEntries l = [] := by
      rw [todoEntries, List.filter_eq_nil_iff]
      intro e he
      simp [hall e he]
    constructor
    · simp [headRequestIds, ht]
    · simp [getRequestIds, ht]

/-- Witness for `c7_skip_filter` on a two-entry manifest: entry 0 is already
complete on disk (content `[1,2,3]`, size 3) and entry 1 is missing; only
entry 1 receives requests, the skip decision ignores content, and a
fully-complete manifest issues no requests at all. -/
theorem c7_skip_filter_witness :
    (∃ e, e ∈ [MEntry.mk 0 3 (some [1, 2, 3]), MEntry.mk 1 5 none]
      ∧ MEntry.id e = 1 ∧ skipCheck e = false)
    ∧ skipCheck (MEntry.mk 0 3 (some [1, 2, 3]))
        = skipCheck (MEntry.mk 0 3 (some [7, 8, 9]))
    ∧ (headRequestIds [MEntry.mk 0 3 (some [1, 2, 3])] = []
       ∧ getRequestIds [MEntry.mk 0 3 (some [1, 2, 3])] [20000000] = []) :=
  ⟨c7_skip_filter.2.1 [MEntry.mk 0 3 (some [1, 2, 3]), MEntry.mk 1 5 none]
      [20000000] 1 (Or.inl (by decide)),
   c7_skip_filter.2.2.1 0 3 [1, 2, 3] [7, 8, 9] (by decide),
   c7_skip_filter.2.2.2 [MEntry.mk 0 3 (some [1, 2, 3])] [20000000]
      (by decide)⟩

/-- The Content-Length collection loop of lib.rs lines 264-282: HEAD
responses are examined in manifest order; a response carrying the header
contributes its parsed value, and the first response without the header makes
`try_main` return exit code 5. -/
def collectContentLengths : List (Option Nat) → Except Nat (List Nat)
  | [] => Except.ok []
  | none :: _ => Except.error 5
  | some n :: rest =>
    match collectContentLengths rest with
    | Except.error c => Except.error c
    | Except.ok ls => Except.ok (n :: ls)

/-- The phase structure of `try_main` (lib.rs lines 264-312): chunk tasks and
their GET requests are built from `zip(todo_entries, content_lengths)` only
after the Content-Length loop has returned every length, so when that loop
exits with code 5 no chunk request is ever constructed. -/
def planChunkGets (heads : List (Option Nat)) :
    Except Nat (List (List (Nat × Nat))) :=
  match collectContentLengths heads with
  | Except.error c => Except.error c
  | Except.ok ls => Except.ok (ls.map fileChunks)

/-- Claim C6: if any HEAD response lacks a Content-Length header, the run
exits with code 5 and no chunk GET request is ever issued (the planner never
reaches the stage that constructs chunk requests). -/
theorem c6_missing_content_length_fatal (heads : List (Option Nat))
    (h : none ∈ heads) : planChunkGets heads = Except.error 5 := by
  have hc : collectContentLengths heads = Except.error 5 := by
    induction heads with
    | nil => cases h
    | cons a rest ih =>
      cases a with
      | none => rfl
      | some n =>
        have h2 : none ∈ rest := by
          cases List.mem_cons.mp h with
          | inl h3 => exact absurd h3 (by simp)
          | inr h3 => exact h3
        simp [collectContentLengths, ih h2]
  simp [planChunkGets, hc]

/-- Witness for `c6_missing_content_length_fatal`: the second of two HEAD
responses lacks the header. -/
theorem c6_missing_content_length_fatal_witness :
    planChunkGets [some 20000000, none] = Except.error 5 :=
  c6_missing_content_length_fatal [some 20000000, none] (by decide)

/-- The back-off delay in nanoseconds computed at lib.rs lines 329 and 344:
`RETRY_WAIT_BASE * 2u32.pow(retry)`. The exponentiation is `u32` arithmetic,
which wraps modulo 2^32 in release builds once `retry ≥ 32`. -/
def delayNanos (retry : Nat) : Nat := RETRY_WAIT_BASE_NS * (2 ^ retry % U32M)

/-- One iteration of the chunk-task loop (lib.rs lines 322-353) as seen from
the network: `client.execute` either fails with a reqwest transport error or
returns a response with a status code, and for a response, reading the body
with `res.bytes()` either fails with a reqwest error or yields the body
bytes. -/
inductive Attempt where
  | transportErr : Attempt
  | response (status : Nat) (body : Option (List Nat)) : Attempt
deriving DecidableEq

/-- How a chunk task terminates. `success bytes`: the body was copied into
the mapping and flushed (lib.rs lines 338-341). `bodyRequestError`: the body
read failed and `?` propagated `TaskError::Request` (line 338). `lenPanic`:
`mapping.copy_from_slice` panicked because the body length differed from the
mapping length (line 339); the panic surfaces as a `JoinError` at the file
task. `exhausted r`: the finite attempt script ended with the task still in
its retry loop at retry counter `r`. -/
inductive ChunkOutcome where
  | success (bytes : List Nat) : ChunkOutcome
  | bodyRequestError : ChunkOutcome
  | lenPanic : ChunkOutcome
  | exhausted (retry : Nat) : ChunkOutcome
deriving DecidableEq

/-- The retry loop of the chunk task (lib.rs lines 321-353) run against a
finite script of attempt outcomes; `windowLen` is `range_size`, the length
of the chunk's memory mapping. Translated from the source: a transport error
from `client.execute`, or any status other than 206, sleeps `delayNanos r`
and continues with `retry + 1`; a 206 response reads the body — a failed read
terminates the task via `?` with `TaskError::Request`, and a successful read
is copied into the mapping by `copy_from_slice`, which panics unless the
lengths agree exactly. The second component collects the delays slept, in
order. -/
def chunkRun (windowLen : Nat) : List Attempt → Nat → ChunkOutcome × List Nat
  | [], r => (ChunkOutcome.exhausted r, [])
  | Attempt.transportErr :: rest, r =>
    let p := chunkRun windowLen rest (r + 1)
    (p.1, delayNanos r :: p.2)
  | Attempt.response status body :: rest, r =>
    if status = 206 then
      match body with
      | none => (ChunkOutcome.bodyRequestError, [])
      | some bs =>
        if bs.length = windowLen then (ChunkOutcome.success bs, [])
        else (ChunkOutcome.lenPanic, [])
    else
      let p := chunkRun windowLen rest (r + 1)
      (p.1, delayNanos r :: p.2)

/-- The attempts the chunk loop treats as retryable: transport errors from
`client.execute` and responses whose status is not 206. -/
def retryable : Attempt → Bool
  | Attempt.transportErr => true
  | Attempt.response status _ => status != 206

/-- Claim C3 counterexample: a 206 response whose body read fails makes the
chunk task terminate at lib.rs line 338
(`res.bytes().await.map_err(TaskError::Request)?`) with a transport-error
(`TaskError::Request`) failure instead of retrying, refuting "the chunk task
never terminates with a transport-error failure". -/
theorem c3_body_error_counterexample :
    (chunkRun 5 [Attempt.response 206 none] 0).1
      = ChunkOutcome.bodyRequestError := by decide

/-- Claim C3 (amended): every transport error raised by `client.execute` and
every response with status other than 206 (including a 200 carrying the full
body) is retried after a sleep and never accepted as success — a script made
only of such attempts leaves the task still retrying, having given up on
nothing; however, a transport error raised while reading the body of a 206
response terminates the chunk task with a transport-error
(`TaskError::Request`) failure. -/
theorem c3_retry_loop :
    (∀ (w : Nat) (l : List Attempt) (r : Nat),
      (∀ a ∈ l, retryable a = true) →
      (chunkRun w l r).1 = ChunkOutcome.exhausted (r + l.length))
    ∧ (∀ (w : Nat) (l1 l2 : List Attempt) (r : Nat),
        (∀ a ∈ l1, retryable a = true) →
        (chunkRun w (l1 ++ Attempt.response 206 none :: l2) r).1
          = ChunkOutcome.bodyRequestError) := by
  constructor
  · intro w l
    induction l with
    | nil => intro r h; simp [chunkRun]
    | cons a rest ih =>
      intro r h
      have ha := h a (by simp)
      have hrest : ∀ x ∈ rest, retryable x = true := fun x hx => h x (by simp [hx])
      cases a with
      | transportErr =>
        simp only [chunkRun]
        rw [ih (r + 1) hrest]
        simp only [List.length_cons]
        congr 1
        omega
      | response s b =>
        have hs : ¬ s = 206 := by simpa [retryable] using ha
        simp only [chunkRun, if_neg hs]
        rw [ih (r + 1) hrest]
        simp only [List.length_cons]
        congr 1
        omega
  · intro w l1
    induction l1 with
    | nil =>
      intro l2 r _
      simp [chunkRun]
    | cons a rest ih =>
      intro l2 r h
      have ha := h a (by simp)
      have hrest : ∀ x ∈ rest, retryable x = true := fun x hx => h x (by simp [hx])
      cases a with
      | transportErr =>
        simp only [List.cons_append, chunkRun]
        exact ih l2 (r + 1) hrest
      | response s b =>
        have hs : ¬ s = 206 := by simpa [retryable] using ha
        simp only [List.cons_append, chunkRun, if_neg hs]
        exact ih l2 (r + 1) hrest

/-- Witness for `c3_retry_loop`: a transport error followed by a 503 and a
200-with-full-body all keep the task retrying; a transport error followed by
a 206 whose body read fails terminates it with the request failure. -/
theorem c3_retry_loop_witness :
    (chunkRun 5 [Attempt.transportErr, Attempt.response 503 (some [1]),
        Attempt.response 200 (some [1, 2, 3, 4, 5])] 0).1
      = ChunkOutcome.exhausted (0 + 3)
    ∧ (chunkRun 5 [Attempt.transportErr,
        Attempt.response 206 none] 0).1
      = ChunkOutcome.bodyRequestError :=
  ⟨c3_retry_loop.1 5 [Attempt.transportErr, Attempt.response 503 (some [1]),
      Attempt.response 200 (some [1, 2, 3, 4, 5])] 0 (by decide),
   c3_retry_loop.2 5 [Attempt.transportErr] [] 0 (by decide)⟩

theorem range_map_delay (n r : Nat) :
    (List.range (n + 1)).map (fun k => delayNanos (r + k))
      = delayNanos r :: (List.range n).map (fun k => delayNanos (r + 1 + k)) := by
  rw [List.range_succ_eq_map, List.map_cons, List.map_map]
  have h1 : delayNanos (r + 0) = delayNanos r := by simp
  rw [h1]
  have h2 : (List.range n).map ((fun k => delayNanos (r + k)) ∘ Nat.succ)
      = (List.range n).map (fun k => delayNanos (r + 1 + k)) := by
    refine List.map_congr_left ?_
    intro a ha
    simp only [Function.comp_apply]
    congr 1
    omega
  rw [h2]

/-- Claim C8 (amended): for both transport-error and non-206-status failures,
the delay slept after the r-th failure (r counted from 0) is
`RETRY_WAIT_BASE * (2^r mod 2^32)` nanoseconds — the `u32` exponentiation of
lib.rs lines 329/344 wraps — which equals the claimed `T₀ · 2^r` exactly for
`r ≤ 31`, so the observed sequence is `T₀, 2T₀, 4T₀, …` up to the 32nd
failure. -/
theorem c8_backoff_delays :
    (∀ (w : Nat) (l : List Attempt) (r : Nat),
      (∀ a ∈ l, retryable a = true) →
      (chunkRun w l r).2 = (List.range l.length).map (fun k => delayNanos (r + k)))
    ∧ (∀ r : Nat, r ≤ 31 → delayNanos r = RETRY_WAIT_BASE_NS * 2 ^ r) := by
  constructor
  · intro w l
    induction l with
    | nil => intro r h; simp [chunkRun]
    | cons a rest ih =>
      intro r h
      have ha := h a (by simp)
      have hrest : ∀ x ∈ rest, retryable x = true := fun x hx => h x (by simp [hx])
      cases a with
      | transportErr =>
        simp only [chunkRun, List.length_cons]
        rw [ih (r + 1) hrest, range_map_delay]
      | response s b =>
        have hs : ¬ s = 206 := by simpa [retryable] using ha
        simp only [chunkRun, if_neg hs, List.length_cons]
        rw [ih (r + 1) hrest, range_map_delay]
  · intro r hr
    have hlt : 2 ^ r < U32M := by
      have h32 : (2 : Nat) ^ r < 2 ^ 32 :=
        Nat.pow_lt_pow_right (by norm_num) (by omega)
      simpa [U32M] using h32
    unfold delayNanos
    rw [Nat.mod_eq_of_lt hlt]

/-- Witness for `c8_backoff_delays`: two consecutive transport errors sleep
`delayNanos 0` then `delayNanos 1`, and `delayNanos 5 = T₀ · 2^5`. -/
theorem c8_backoff_delays_witness :
    (chunkRun 5 [Attempt.transportErr, Attempt.transportErr] 0).2
      = (List.range 2).map (fun k => delayNanos (0 + k))
    ∧ delayNanos 5 = RETRY_WAIT_BASE_NS * 2 ^ 5 :=
  ⟨c8_backoff_delays.1 5 [Attempt.transportErr, Attempt.transportErr] 0
      (by decide),
   c8_backoff_delays.2 5 (by norm_num)⟩

/-- Claim C8 counterexample: after the 32nd failure (r = 32) the code
computes `2u32.pow(32)`, which wraps to 0, so the slept delay is 0 ns and
not `T₀ · 2^32` — the 33rd element of the back-off sequence breaks the
`T₀, 2T₀, 4T₀, …` law. -/
theorem c8_overflow_counterexample :
    ((chunkRun 5 (List.replicate 33 Attempt.transportErr) 0).2)[32]?
      = some 0
    ∧ (0 : Nat) ≠ RETRY_WAIT_BASE_NS * 2 ^ 32 := by
  constructor
  · decide
  · norm_num [RETRY_WAIT_BASE_NS]

/-- Claim C10: bytes are copied into the chunk's mapping only when the body
length equals the mapping window length: every successful chunk copied a body
of exactly the window length, and a 206 body of any other length makes
`copy_from_slice` (lib.rs line 339) panic — surfaced to the file task as a
`JoinError` — rather than truncating or padding the write. -/
theorem c10_length_mismatch_detected :
    (∀ (w : Nat) (l : List Attempt) (r : Nat) (bs : List Nat),
      (chunkRun w l r).1 = ChunkOutcome.success bs → bs.length = w)
    ∧ (∀ (w : Nat) (l2 : List Attempt) (r : Nat) (bs : List Nat),
        bs.length ≠ w →
        (chunkRun w (Attempt.response 206 (some bs) :: l2) r).1
          = ChunkOutcome.lenPanic) := by
  constructor
  · intro w l
    induction l with
    | nil => intro r bs h; simp [chunkRun] at h
    | cons a rest ih =>
      intro r bs h
      cases a with
      | transportErr =>
        simp only [chunkRun] at h
        exact ih (r + 1) bs h
      | response s b =>
        by_cases hs : s = 206
        · subst hs
          cases b with
          | none => simp [chunkRun] at h
          | some bs2 =>
            by_cases hl : bs2.length = w
            · simp only [chunkRun, if_pos rfl, if_pos hl] at h
              cases h
              exact hl
            · simp [chunkRun, hl] at h
        · simp only [chunkRun, if_neg hs] at h
          exact ih (r + 1) bs h
  · intro w l2 r bs hne
    simp [chunkRun, hne]

/-- Witness for `c10_length_mismatch_detected`: a 5-byte window accepts a
5-byte body, and a 3-byte body for the same window panics instead of being
written. -/
theorem c10_length_mismatch_detected_witness :
    ([1, 2, 3, 4, 5] : List Nat).length = 5
    ∧ (chunkRun 5 [Attempt.response 206 (some [1, 2, 3])] 0).1
      = ChunkOutcome.lenPanic :=
  ⟨c10_length_mismatch_detected.1 5
      [Attempt.response 206 (some [1, 2, 3, 4, 5])] 0 [1, 2, 3, 4, 5]
      (by decide),
   c10_length_mismatch_detected.2 5 [] 0 [1, 2, 3] (by decide)⟩

/-- The decode-phase scheduling state: `availablePermits` is the permit
count of the disk semaphore (`Semaphore::new(opts.disk_threads)`,
lib.rs line 289) and `runningDecodes` counts decode closures currently
executing on the blocking pool. -/
structure DecodeSched where
  availablePermits : Nat
  runningDecodes : Nat
deriving DecidableEq

/-- A decode closure starting on the blocking pool (lib.rs lines 371-373).
The closure's first statement is
`let _permit = disk_sem_clone.acquire_owned();` inside a `spawn_blocking`
closure, which is synchronous: `acquire_owned()` returns a `Future`, a Rust
future does nothing until polled, and the closure never awaits or blocks on
it — so the decode body runs regardless of the semaphore and no permit is
subtracted. (Dropping the unpolled future at the end of the closure likewise
returns nothing.) The permit count is therefore unchanged and entry into the
decode phase is never gated. -/
def decodeBegin (s : DecodeSched) : DecodeSched :=
  DecodeSched.mk s.availablePermits (s.runningDecodes + 1)

/-- A decode closure finishing (end of the `spawn_blocking` closure,
lib.rs line 385): the unpolled future bound to `_permit` is dropped, which
again leaves the semaphore untouched. -/
def decodeEnd (s : DecodeSched) : DecodeSched :=
  DecodeSched.mk s.availablePermits (s.runningDecodes - 1)

/-- Claim C1 (code bug at lib.rs line 372): the future returned by
`disk_sem_clone.acquire_owned()` is never awaited inside the synchronous
`spawn_blocking` closure, so no disk permit is ever acquired — starting a
decode leaves the semaphore's permit count unchanged, and with
`disk_threads = 1` two file tasks whose chunks have completed both enter the
decode phase simultaneously: `runningDecodes = 2 > N_disk = 1`, violating
the claimed concurrency cap. -/
theorem c1_disk_permit_never_acquired :
    (∀ s : DecodeSched, (decodeBegin s).availablePermits = s.availablePermits)
    ∧ decodeBegin (decodeBegin (DecodeSched.mk 1 0)) = DecodeSched.mk 1 2
    ∧ 1 < (decodeBegin (decodeBegin (DecodeSched.mk 1 0))).runningDecodes :=
  ⟨fun _ => rfl, rfl, by decide⟩

/-- The supervisor loop of `try_main` (lib.rs lines 394-400) applied to the
file-task results in manifest order: `none` is a file task that settles
successfully, `some e` one that settles with error `e`. Translated from the
source: each iteration awaits one more task; on the first `Err` the error is
reported and the function returns exit code 6 at once; if the loop finishes,
the exit code is 0. The result pairs the exit code with how many file tasks
were awaited. -/
def supervise : List (Option String) → Nat × Nat
  | [] => (0, 0)
  | none :: rest =>
    let p := supervise rest
    (p.1, p.2 + 1)
  | some _ :: _ => (6, 1)

/-- Claim C2 counterexample: with two file tasks of which the first fails,
the supervisor returns exit code 6 after awaiting only one of the two tasks,
refuting "continues awaiting the remaining file tasks ... returns a non-zero
exit code (6) only after all tasks have settled". -/
theorem c2_returns_early_counterexample :
    supervise [some "boom", none] = (6, 1) ∧ (1 : Nat) ≠ 2 :=
  ⟨rfl, by decide⟩

/-- Claim C2 (amended): the supervisor awaits the file tasks in order; if
every file task succeeds it awaits all of them and returns exit code 0; on
the first failing file task it reports that task's error and returns exit
code 6 immediately, having awaited only the tasks up to and including the
failing one — the remaining file tasks are not awaited. -/
theorem c2_supervisor :
    (∀ l : List (Option String), (∀ x ∈ l, x = none) →
      supervise l = (0, l.length))
    ∧ (∀ (l1 l2 : List (Option String)) (e : String), (∀ x ∈ l1, x = none) →
        supervise (l1 ++ some e :: l2) = (6, l1.length + 1)) := by
  constructor
  · intro l
    induction l with
    | nil => intro _; rfl
    | cons a rest ih =>
      intro h
      have ha := h a (by simp)
      subst ha
      simp only [supervise, ih (fun x hx => h x (by simp [hx])),
        List.length_cons]
  · intro l1
    induction l1 with
    | nil => intro l2 e _; rfl
    | cons a rest ih =>
      intro l2 e h
      have ha := h a (by simp)
      subst ha
      have ihr := ih l2 e (fun x hx => h x (by simp [hx]))
      simp [supervise, ihr]

/-- Witness for `c2_supervisor`: two successful tasks give exit 0 with both
awaited; success-failure-success gives exit 6 with two of three awaited. -/
theorem c2_supervisor_witness :
    supervise [none, none] = (0, 2)
    ∧ supervise ([none] ++ some "boom" :: [none]) = (6, 2) :=
  ⟨c2_supervisor.1 [none, none] (by decide),
   c2_supervisor.2 [none] [none] "boom" (by decide)⟩

end FastDl

namespace GitObject

/-- Decimal-digit bytes of `n`, as Rust's integer `Display` produces them
inside `format!("blob {}\0", size)` (git_object.rs line 54). The fuel
argument only drives termination; `n + 1` fuel always suffices because each
step divides the remaining value by 10. -/
def decDigitsAux : Nat → Nat → List Nat
  | 0, _ => []
  | fuel + 1, n =>
    if n < 10 then [48 + n]
    else decDigitsAux fuel (n / 10) ++ [48 + n % 10]

/-- Decimal-digit bytes of `n` (ASCII codes in 48..57). -/
def decDigits (n : Nat) : List Nat := decDigitsAux (n + 1) n

/-- The five bytes of `"blob "` checked at git_object.rs line 23. -/
def blobMagic : List Nat := [98, 108, 111, 98, 32]

/-- The size-skipping loop of `GitObjectReadSync::read`
(git_object.rs lines 27-36): single bytes are consumed until a NUL; a byte
outside ASCII `0`-`9` is InvalidData "git_object bad size"; running out of
bytes is an UnexpectedEof from `read_exact`. -/
def skipSize : List Nat → Except String (List Nat)
  | [] => Except.error "eof"
  | b :: rest =>
    if b = 0 then Except.ok rest
    else if 48 ≤ b ∧ b ≤ 57 then skipSize rest
    else Except.error "git_object bad size"

/-- The header handling of `GitObjectReadSync::read` (git_object.rs lines
18-40) over the whole decompressed stream: the first five bytes must equal
`"blob "` (otherwise InvalidData "git_object bad magic", with fewer than
five bytes an UnexpectedEof), the size digits are skipped up to the NUL, and
everything after the NUL is yielded as the payload. -/
def stripHeader (l : List Nat) : Except String (List Nat) :=
  if l.length < 5 then Except.error "eof"
  else if l.take 5 = blobMagic then skipSize (l.drop 5)
  else Except.error "git_object bad magic"

/-- The header prepended by `encode_sync` (git_object.rs line 54:
`format!("blob {}\0", size)` as bytes). -/
def blobHeader (size : Nat) : List Nat := blobMagic ++ decDigits size ++ [0]

/-- `encode_sync` (git_object.rs lines 52-58): compress the header followed
by the payload. flate2's `ZlibEncoder` is an external library and enters as
the function `zlibC`. -/
def encode_sync (zlibC : List Nat → List Nat) (size : Nat) (s : List Nat) :
    List Nat :=
  zlibC (blobHeader size ++ s)

/-- `decode_sync` (git_object.rs lines 60-65): decompress with flate2's
`ZlibDecoder` (the function `zlibD`) and strip the git-object header. -/
def decode_sync (zlibD : List Nat → List Nat) (l : List Nat) :
    Except String (List Nat) :=
  stripHeader (zlibD l)

theorem decDigitsAux_bounds (fuel : Nat) :
    ∀ n, ∀ d ∈ decDigitsAux fuel n, 48 ≤ d ∧ d ≤ 57 := by
  induction fuel with
  | zero => intro n d hd; simp [decDigitsAux] at hd
  | succ f ih =>
    intro n d hd
    by_cases h : n < 10
    · simp [decDigitsAux, h] at hd
      omega
    · simp only [decDigitsAux, if_neg h, List.mem_append,
        List.mem_singleton] at hd
      cases hd with
      | inl h2 => exact ih (n / 10) d h2
      | inr h2 =>
        have hm : n % 10 < 10 := Nat.mod_lt _ (by omega)
        omega

theorem decDigits_bounds (n : Nat) : ∀ d ∈ decDigits n, 48 ≤ d ∧ d ≤ 57 :=
  decDigitsAux_bounds (n + 1) n

theorem skipSize_digits (ds s : List Nat) (h : ∀ d ∈ ds, 48 ≤ d ∧ d ≤ 57) :
    skipSize (ds ++ 0 :: s) = Except.ok s := by
  induction ds with
  | nil => simp [skipSize]
  | cons d rest ih =>
    have hd := h d (by simp)
    have h0 : ¬ d = 0 := by omega
    simp only [List.cons_append, skipSize, if_neg h0, if_pos hd]
    exact ih (fun x hx => h x (by simp [hx]))

theorem stripHeader_blobHeader (n : Nat) (s : List Nat) :
    stripHeader (blobHeader n ++ s) = Except.ok s := by
  have e : blobHeader n ++ s = blobMagic ++ (decDigits n ++ 0 :: s) := by
    simp [blobHeader, List.append_assoc]
  have hm5 : blobMagic.length = 5 := rfl
  have htake : (blobHeader n ++ s).take 5 = blobMagic := by
    rw [e]
    exact List.take_left' hm5
  have hdrop : (blobHeader n ++ s).drop 5 = decDigits n ++ 0 :: s := by
    rw [e]
    exact List.drop_left' hm5
  have hlen : ¬ (blobHeader n ++ s).length < 5 := by
    rw [e, List.length_append, hm5]
    omega
  rw [stripHeader, if_neg hlen, if_pos htake, hdrop]
  exact skipSize_digits _ _ (decDigits_bounds n)

/-- Claim C9: for every byte string `s`, streaming `encode_sync (|s|, s)` —
which prepends the header `"blob |s|\0"` and compresses — into `decode_sync`
yields exactly `s`: the decode transform strips the header and inverts the
compression. flate2's zlib codec is external to the repository and enters as
an arbitrary pair `zlibC`/`zlibD` satisfying its round-trip contract. -/
theorem c9_decode_encode_roundtrip (zlibC zlibD : List Nat → List Nat)
    (hzlib : ∀ l, zlibD (zlibC l) = l) (s : List Nat) :
    decode_sync zlibD (encode_sync zlibC s.length s) = Except.ok s := by
  unfold decode_sync encode_sync
  rw [hzlib]
  exact stripHeader_blobHeader s.length s

/-- Witness for `c9_decode_encode_roundtrip` with the identity codec (which
satisfies the round-trip contract) on a payload containing a NUL and a digit
byte. -/
theorem c9_decode_encode_roundtrip_witness :
    (∀ l : List Nat, id (id l) = l)
    ∧ decode_sync id (encode_sync id ([10, 0, 48] : List Nat).length [10, 0, 48])
      = Except.ok [10, 0, 48] :=
  ⟨fun _ => rfl,
   c9_decode_encode_roundtrip id id (fun _ => rfl) [10, 0, 48]⟩

/-- The two on-disk paths of one work item: `dst` models `dst_path` and
`tmp` models `tmp_path`; `none` means the path does not exist, `some c`
that a file with byte content `c` is on disk. -/
structure FsPair where
  dst : Option (List Nat)
  tmp : Option (List Nat)
deriving DecidableEq

/-- The decode step of the file task (fast-dl lib.rs lines 375-384),
translated statement by statement: `File::create(dst_path)` first creates or
truncates the destination, so `dst` holds an empty file before anything else
happens; `File::open(tmp_path)` fails if the staging file is missing; the
staged bytes then stream through the decode transform — a header error
leaves the just-created empty destination in place (`copy` has produced no
output yet) and propagates the error, while success writes the payload to
the destination and `remove_file(tmp_path)` deletes the staging file. -/
def decodeStep (zlibD : List Nat → List Nat) (fs : FsPair) :
    FsPair × Except String Unit :=
  let fs1 := FsPair.mk (some []) fs.tmp
  match fs.tmp with
  | none => (fs1, Except.error "open tmp")
  | some tbytes =>
    match stripHeader (zlibD tbytes) with
    | Except.error e => (fs1, Except.error e)
    | Except.ok payload => (FsPair.mk (some payload) none, Except.ok ())

/-- Claim C4 counterexample: when the staged object's bytes begin with
`"tree 5\0"` instead of `"blob "`, the decode step fails with the bad-magic
error, yet `dst_path` exists — `File::create(dst_path)` at lib.rs line 375
created (truncated) it before the header was examined — refuting "dst_path
does not exist". -/
theorem c4_dst_created_counterexample :
    decodeStep id (FsPair.mk none (some [116, 114, 101, 101, 32, 53, 0]))
      = (FsPair.mk (some []) (some [116, 114, 101, 101, 32, 53, 0]),
         Except.error "git_object bad magic")
    ∧ (FsPair.mk (some []) (some [116, 114, 101, 101, 32, 53, 0])).dst ≠ none :=
  ⟨rfl, by simp⟩

/-- Claim C4 (amended): if the decode step of a work item fails (for
example, the staged object's header does not begin with `"blob "`),
`tmp_path` remains on disk but `dst_path` exists as the empty file
`File::create` produced before decoding, rather than not existing; if the
decode step succeeds, `tmp_path` has been deleted and `dst_path` holds the
decoded output. -/
theorem c4_decode_step_filesystem (zlibD : List Nat → List Nat) (fs : FsPair) :
    (∀ e, (decodeStep zlibD fs).2 = Except.error e →
      (decodeStep zlibD fs).1.dst = some []
        ∧ (decodeStep zlibD fs).1.tmp = fs.tmp)
    ∧ ((decodeStep zlibD fs).2 = Except.ok () →
      ∃ t p, fs.tmp = some t ∧ stripHeader (zlibD t) = Except.ok p
        ∧ (decodeStep zlibD fs).1.dst = some p
        ∧ (decodeStep zlibD fs).1.tmp = none) := by
  cases fs with
  | mk dst tmp =>
    cases tmp with
    | none =>
      constructor
      · intro e _
        simp [decodeStep]
      · intro h
        simp [decodeStep] at h
    | some t =>
      cases hs : stripHeader (zlibD t) with
      | error e2 =>
        constructor
        · intro e _
          constructor
          · simp [decodeStep, hs]
          · simp [decodeStep, hs]
        · intro h
          simp [decodeStep, hs] at h
      | ok p =>
        constructor
        · intro e he
          simp [decodeStep, hs] at he
        · intro _
          exact ⟨t, p, rfl, hs, by simp [decodeStep, hs],
            by simp [decodeStep, hs]⟩

/-- Witness for `c4_decode_step_filesystem`: the `"tree 5\0"` staging file
fails and leaves both files on disk; a well-formed `"blob 2\0"` object with
payload `[7, 7]` succeeds, writes the payload, and deletes the staging
file. -/
theorem c4_decode_step_filesystem_witness :
    ((decodeStep id (FsPair.mk none (some [116, 114, 101, 101, 32, 53, 0]))).1.dst
        = some []
      ∧ (decodeStep id (FsPair.mk none (some [116, 114, 101, 101, 32, 53, 0]))).1.tmp
        = (FsPair.mk none (some [116, 114, 101, 101, 32, 53, 0])).tmp)
    ∧ (∃ t p, (FsPair.mk none (some (blobHeader 2 ++ [7, 7]))).tmp = some t
        ∧ stripHeader (id t) = Except.ok p
        ∧ (decodeStep id (FsPair.mk none (some (blobHeader 2 ++ [7, 7])))).1.dst
          = some p
        ∧ (decodeStep id (FsPair.mk none (some (blobHeader 2 ++ [7, 7])))).1.tmp
          = none) :=
  ⟨(c4_decode_step_filesystem id
      (FsPair.mk none (some [116, 114, 101, 101, 32, 53, 0]))).1
      "git_object bad magic" rfl,
   (c4_decode_step_filesystem id
      (FsPair.mk none (some (blobHeader 2 ++ [7, 7])))).2 rfl⟩

end GitObject
